import Mathlib

/-!
Verification of the startup-pitch publishing site (a Next.js front end over a
hosted headless CMS).  The server action `createPitch` (src/lib/action.ts), the
client form handler `handleFormSubmit`, the `View` counter component, the list
page composer `Home` and the detail page composer are shallowly embedded below;
external collaborators (the auth provider, the `slugify` library, the CMS
read/write clients, the markdown-it converter) appear as explicit parameters.
-/

namespace JSMStartup

/-- Status tag of a normalized server-action result:
`"SUCCESS" | "ERROR" | "INITIAL"`. -/
inductive Status
  | SUCCESS
  | ERROR
  | INITIAL
deriving DecidableEq, Repr

/-- The session returned by the auth collaborator; `createPitch` only uses its
`id` (`session?.id`) as the author reference. -/
structure Session where
  id : String
deriving DecidableEq, Repr

/-- The slug object built in `createPitch`: `{ _type: slug, current: slug }`.
`ty` models the `_type` field, `current` the `current` field. -/
structure SlugObj where
  ty : String
  current : String
deriving DecidableEq, Repr

/-- The author reference built in `createPitch`:
`{ _type: "reference", _ref: session?.id }`.  `ty` models `_type`, `ref`
models `_ref`. -/
structure AuthorRef where
  ty : String
  ref : String
deriving DecidableEq, Repr

/-- The startup document constructed in `createPitch` and handed to
`writeClient.create`.  Fields read from the form are `Option String`:
`none` models a missing form entry (JavaScript `undefined`). -/
structure StartupDoc where
  title : Option String
  description : Option String
  category : Option String
  image : Option String
  slug : SlugObj
  author : AuthorRef
  pitch : String
deriving DecidableEq, Repr

/-- The created document as returned by the CMS write: the id assigned by the
store together with the stored fields (spread into the action result). -/
structure CreatedDoc where
  docId : String
  doc : StartupDoc
deriving DecidableEq, Repr

/-- Modelled from the spec: `parseServerActionResponse` lives in
`src/lib/utils`, which is not among the sources.  Spec section 2 describes the
Response Normalizer: "wraps a server-action result into a uniform shape
(spreads payload, status tag, error message), used so callers can branch on
one field", with response shape `{ ...payload, error: string, status: ... }`
(section 6). -/
structure ActionResult where
  payload : Option CreatedDoc
  error : String
  status : Status
deriving DecidableEq, Repr

/-- Modelled from the spec: the Response Normalizer assembles the uniform
result shape from the spread payload, the error message and the status tag. -/
def parseServerActionResponse (payload : Option CreatedDoc) (error : String)
    (status : Status) : ActionResult :=
  { payload := payload, error := error, status := status }

/-- What the caller of the async server action observes: a returned structured
result, or an exception that propagated out of the action (a rejected
promise). -/
inductive ActionOutcome
  | returned (r : ActionResult)
  | thrown (e : String)
deriving DecidableEq, Repr

/-- `Object.fromEntries` builds an object in which, for a duplicated key, the
last entry wins; reading an absent key yields `undefined` (`none` here). -/
def fromEntriesLookup (entries : List (String × String)) (key : String) :
    Option String :=
  entries.reverse.lookup key

/-- Field extraction in `createPitch`:
`Object.fromEntries(Array.from(form).filter(([key]) => key !== "pitch"))`
followed by destructuring one field. -/
def formField (form : List (String × String)) (key : String) : Option String :=
  fromEntriesLookup (form.filter (fun kv => kv.1 != "pitch")) key

/-- Model of `JSON.stringify` applied to the caught exception, whose payload is
a string in this embedding. -/
def jsonStringify (e : String) : String :=
  "\"" ++ e ++ "\""

/-- The startup object literal constructed inside the `try` block of
`createPitch`, for session `s`, extracted title `t` and slug `slugifyFn t`:
title, description, category, image (the `link` field), slug object with both
`_type` and `current` set to the slug string, author reference to the session
id, and the pitch body. -/
def builtStartup (s : Session) (form : List (String × String)) (pitch : String)
    (slugifyFn : String → String) (t : String) : StartupDoc :=
  { title := some t
  , description := formField form "description"
  , category := formField form "category"
  , image := formField form "link"
  , slug := { ty := slugifyFn t, current := slugifyFn t }
  , author := { ty := "reference", ref := s.id }
  , pitch := pitch }

/-- Shallow embedding of `createPitch` (src/lib/action.ts).  Collaborators are
parameters: `auth` is the session resolved by the external auth collaborator,
`slugifyFn` the external `slugify` library applied with
`{ lower: true, strict: true }` (total on strings; the library throws
`"slugify: string argument expected"` when its argument is not a string, i.e.
when the `title` form field is absent and `title` is `undefined`), and `write`
the CMS write `writeClient.create`, returning the assigned document id or
throwing.  The `slugify` call sits before the `try` block in the source, so
its exception is not caught.  Returns the caller-observed outcome together
with the list of documents for which a CMS write call was issued. -/
def createPitch (auth : Option Session) (form : List (String × String))
    (pitch : String) (slugifyFn : String → String)
    (write : StartupDoc → Except String String) :
    ActionOutcome × List StartupDoc :=
  match auth with
  | none =>
      (.returned (parseServerActionResponse none "Not signed in" .ERROR), [])
  | some session =>
      match formField form "title" with
      | none => (.thrown "slugify: string argument expected", [])
      | some t =>
          match write (builtStartup session form pitch slugifyFn t) with
          | .ok docId =>
              (.returned (parseServerActionResponse
                (some ⟨docId, builtStartup session form pitch slugifyFn t⟩)
                "" .SUCCESS), [builtStartup session form pitch slugifyFn t])
          | .error e =>
              (.returned (parseServerActionResponse none (jsonStringify e)
                .ERROR), [builtStartup session form pitch slugifyFn t])

/-- `formData.get(key)` returns the first value stored under `key`, or `null`
(`none`) when the key is absent. -/
def formDataGet (form : List (String × String)) (key : String) :
    Option String :=
  form.lookup key

/-- Modelled from the spec: the Form Validator schema `formSchema`
(`src/lib/validation` is not among the sources).  Spec section 4.1: "given a
candidate object with fields \x7btitle, description, category, link, pitch\x7d,
all are required non-empty strings; `link` must be a syntactically valid URL;
`pitch` must meet a minimum length."  The URL syntax check and the minimum
pitch length are abstracted as parameters `isValidURL` and `minPitchLen`; an
absent field (`none`, JavaScript `null`) is rejected. -/
def formSchemaOK (isValidURL : String → Bool) (minPitchLen : Nat)
    (title description category link : Option String) (pitch : String) :
    Bool :=
  (match title with | some s => s != "" | none => false) &&
  (match description with | some s => s != "" | none => false) &&
  (match category with | some s => s != "" | none => false) &&
  (match link with | some s => s != "" && isValidURL s | none => false) &&
  (pitch != "" && Nat.ble minPitchLen pitch.length)

/-- Shallow embedding of `handleFormSubmit` in the client form component:
collect the form values plus the markdown-editor `pitch` state, validate them
against `formSchema` (a Zod validation failure is caught, surfaces field
errors, and returns `\x7b error: "Validation failed", status: "ERROR" \x7d`
without ever invoking the server action), otherwise invoke `createPitch` with
the raw form data and the pitch state; an exception rejected by the server
action lands in the generic catch branch.  Toast notifications and the
redirect are presentation only and not modelled.  Returns the handler result
together with the CMS writes issued. -/
def handleFormSubmit (auth : Option Session) (form : List (String × String))
    (pitchState : String) (isValidURL : String → Bool) (minPitchLen : Nat)
    (slugifyFn : String → String)
    (write : StartupDoc → Except String String) :
    ActionResult × List StartupDoc :=
  if formSchemaOK isValidURL minPitchLen (formDataGet form "title")
      (formDataGet form "description") (formDataGet form "category")
      (formDataGet form "link") pitchState then
    match createPitch auth form pitchState slugifyFn write with
    | (.returned r, writes) => (r, writes)
    | (.thrown _, writes) =>
        ({ payload := none, error := "An unexpected error has occurred"
         , status := .ERROR }, writes)
  else
    ({ payload := none, error := "Validation failed", status := .ERROR }, [])

/-- The view-count text of the `View` component:
`totalViews < 1 ? "No views" : totalViews + (totalViews === 1 ? " view" : " views")`
(the JSX interpolates the number, a space, and the pluralized unit). -/
def renderViews (totalViews : Nat) : String :=
  if totalViews < 1 then "No views"
  else toString totalViews ++ (if totalViews = 1 then " view" else " views")

/-- Output of the `View` server component: the rendered text, and the list of
writes the component schedules through `unstable_after` — each a pair of the
patched document id and the value the `views` field is set to.  `next/server`
runs these callbacks only after the response has been produced and flushed. -/
structure ViewOutput where
  rendered : String
  afterWrites : List (String × Nat)
deriving DecidableEq, Repr

/-- Shallow embedding of the `View` component: `totalViews` is the count
fetched through the uncached read (`withConfig(\x7b useCdn: false \x7d)` with
`STARTUP_VIEWS_QUERY`); `commitOutcome` is the eventual result of the deferred
`writeClient.patch(id).set(...).commit()` call, which the component never
inspects.  It renders the count and schedules, via `after`, one write setting
`views` to `totalViews + 1`. -/
def View (id : String) (totalViews : Nat)
    (_commitOutcome : Except String Unit) : ViewOutput :=
  { rendered := renderViews totalViews
  , afterWrites := [(id, totalViews + 1)] }

/-- A startup record as fetched for display (the fields the composers use). -/
structure FetchedStartup where
  title : String
  description : String
  category : String
  image : String
  pitch : Option String
deriving DecidableEq, Repr

/-- The "Pitch Details" block of the detail page: either the markdown-converted
HTML injected via `dangerouslySetInnerHTML`, or the placeholder paragraph
`No details provided`. -/
inductive PitchSection
  | article (html : String)
  | noDetails
deriving DecidableEq, Repr

/-- The content rendered by the detail page for an existing startup. -/
structure PageContent where
  heading : String
  description : String
  category : String
  pitchSection : PitchSection
  editorSection : Option (List FetchedStartup)
  viewWidgetId : String
deriving DecidableEq, Repr

/-- Outcome of the detail page composer: the not-found termination
(`notFound()`), or the rendered content. -/
inductive PageOutcome
  | notFound
  | content (c : PageContent)
deriving DecidableEq, Repr

/-- The pitch section of a detail page outcome, when the page rendered. -/
def pitchSectionOf : PageOutcome → Option PitchSection
  | .notFound => none
  | .content c => some c.pitchSection

/-- Shallow embedding of the detail page composer
(src/app/(root)/startup/[id]/page.tsx).  `post` and `editorPosts` are the
joined results of the two reads issued concurrently through `Promise.all`
(the startup by `id` via `STARTUP_BY_ID_QUERY`, and the editor picks via
`PLAYLIST_BY_SLUG_QUERY` at the fixed slug `"editor-picks"`); the branch on
`post` runs only once both have completed.  `mdRender` is the external
markdown-it converter `md.render`.  A missing startup terminates the page
with `notFound()` before any component mounts; otherwise the pitch body is
converted (`md.render(post?.pitch || "")`) and the article is rendered when
the conversion is non-empty, the placeholder otherwise; the editor-picks grid
is rendered only when the list is non-empty; the `View` widget is mounted
deferred behind a `Suspense` boundary. -/
def detailPage (id : String) (post : Option FetchedStartup)
    (editorPosts : List FetchedStartup) (mdRender : String → String) :
    PageOutcome :=
  match post with
  | none => .notFound
  | some p =>
      let parsedContent := mdRender (p.pitch.getD "")
      .content
        { heading := p.title
        , description := p.description
        , category := p.category
        , pitchSection :=
            if parsedContent != "" then .article parsedContent else .noDetails
        , editorSection :=
            if editorPosts.length > 0 then some editorPosts else none
        , viewWidgetId := id }

/-- The grid section of the list page: the startup cards, or the literal
`No Results Found` paragraph. -/
inductive Grid
  | cards (posts : List FetchedStartup)
  | noResults
deriving DecidableEq, Repr

/-- Output of the list page composer: the `search` parameter passed to
`STARTUPS_QUERY`, the section heading, and the grid. -/
structure HomeOutput where
  searchParam : Option String
  heading : String
  grid : Grid
deriving DecidableEq, Repr

/-- The `search` parameter built by the list page:
`\x7b search: query || null \x7d` — an absent query or the empty string
(falsy) becomes `null`, any other string is passed through unchanged. -/
def searchParamOf (query : Option String) : Option String :=
  match query with
  | some q => if q != "" then some q else none
  | none => none

/-- Shallow embedding of the list page composer (src/app/(root)/page.tsx).
`query` is the optional `query` route search parameter, `fetchList` the CMS
list read (`sanityFetch` with `STARTUPS_QUERY`), applied to the `search`
parameter — matching is entirely the query layer's job.  The heading echoes
the query when it is truthy; the grid shows one card per post when the list
is non-empty and the `No Results Found` message otherwise. -/
def Home (query : Option String)
    (fetchList : Option String → List FetchedStartup) : HomeOutput :=
  let params := searchParamOf query
  let posts := fetchList params
  { searchParam := params
  , heading :=
      match searchParamOf query with
      | some q => "Search Results for " ++ q
      | none => "All Startups"
  , grid := if posts.length > 0 then .cards posts else .noResults }

/-- Stand-in markdown converter used to instantiate the external `md.render`
parameter on concrete inputs: empty input converts to empty output, anything
else to a paragraph. -/
def mdStub (s : String) : String :=
  if s = "" then "" else "<p>" ++ s ++ "</p>"

/-- C1: for every submission with an active session whose CMS write is
accepted, `createPitch` returns a SUCCESS result carrying the created
document, whose `slug.current` equals the slugify transform (lowercase,
strict charset — the `slugifyFn` collaborator) of the submitted title, and
whose author reference `_ref` equals the session's id. -/
theorem createPitch_slug_and_author (s : Session)
    (form : List (String × String)) (pitch : String)
    (slugifyFn : String → String) (write : StartupDoc → Except String String)
    (t docId : String) (ht : formField form "title" = some t)
    (hw : write (builtStartup s form pitch slugifyFn t) = .ok docId) :
    createPitch (some s) form pitch slugifyFn write =
      (.returned { payload := some ⟨docId, builtStartup s form pitch slugifyFn t⟩
                 , error := "", status := .SUCCESS }
      , [builtStartup s form pitch slugifyFn t])
    ∧ (builtStartup s form pitch slugifyFn t).slug.current = slugifyFn t
    ∧ (builtStartup s form pitch slugifyFn t).author.ref = s.id := by
  refine ⟨?_, rfl, rfl⟩
  simp [createPitch, ht, hw, parseServerActionResponse]

/-- Witness for C1 at a concrete submission. -/
theorem createPitch_slug_and_author_witness :
    createPitch (some ⟨"user-1"⟩) [("title", "My Startup")] "p" (fun x => x)
        (fun _ => .ok "doc-1") =
      (.returned { payload := some ⟨"doc-1",
                     builtStartup ⟨"user-1"⟩ [("title", "My Startup")] "p"
                       (fun x => x) "My Startup"⟩
                 , error := "", status := .SUCCESS }
      , [builtStartup ⟨"user-1"⟩ [("title", "My Startup")] "p" (fun x => x)
          "My Startup"])
    ∧ (builtStartup ⟨"user-1"⟩ [("title", "My Startup")] "p" (fun x => x)
        "My Startup").slug.current = (fun x => x) "My Startup"
    ∧ (builtStartup ⟨"user-1"⟩ [("title", "My Startup")] "p" (fun x => x)
        "My Startup").author.ref = (⟨"user-1"⟩ : Session).id :=
  createPitch_slug_and_author ⟨"user-1"⟩ [("title", "My Startup")] "p"
    (fun x => x) (fun _ => .ok "doc-1") "My Startup" "doc-1" rfl rfl

/-- C2: with no active session, `createPitch` returns the ERROR result with
message "Not signed in" and issues no CMS write. -/
theorem createPitch_no_session (form : List (String × String))
    (pitch : String) (slugifyFn : String → String)
    (write : StartupDoc → Except String String) :
    createPitch none form pitch slugifyFn write =
      (.returned { payload := none, error := "Not signed in"
                 , status := .ERROR }, []) :=
  rfl

/-- C3 (amended): once the title field is present — so the slugify call before
the `try` block cannot throw — `createPitch` never propagates an exception:
the document construction and the CMS write run inside the `try`, and a write
exception is caught, JSON-serialized into the error field, and returned with
status ERROR. -/
theorem createPitch_steps45_exceptions_caught (s : Session)
    (form : List (String × String)) (pitch : String)
    (slugifyFn : String → String) (t : String)
    (ht : formField form "title" = some t) :
    (∀ write : StartupDoc → Except String String,
      ∃ r, (createPitch (some s) form pitch slugifyFn write).1 =
        ActionOutcome.returned r)
    ∧ ∀ e, (createPitch (some s) form pitch slugifyFn (fun _ => .error e)).1 =
        .returned { payload := none, error := jsonStringify e
                  , status := .ERROR } := by
  constructor
  · intro write
    cases hw : write (builtStartup s form pitch slugifyFn t) with
    | ok docId =>
        exact ⟨{ payload := some ⟨docId, builtStartup s form pitch slugifyFn t⟩
               , error := "", status := .SUCCESS }
              , by simp [createPitch, ht, hw, parseServerActionResponse]⟩
    | error e =>
        exact ⟨{ payload := none, error := jsonStringify e, status := .ERROR }
              , by simp [createPitch, ht, hw, parseServerActionResponse]⟩
  · intro e
    simp [createPitch, ht, parseServerActionResponse]

/-- Witness for C3's amended theorem at a concrete submission and a CMS write
that throws. -/
theorem createPitch_steps45_exceptions_caught_witness :
    (createPitch (some ⟨"user-1"⟩) [("title", "T")] "p" (fun x => x)
        (fun _ => .error "boom")).1 =
      .returned { payload := none, error := jsonStringify "boom"
                , status := .ERROR } :=
  (createPitch_steps45_exceptions_caught ⟨"user-1"⟩ [("title", "T")] "p"
    (fun x => x) "T" rfl).2 "boom"

/-- C3 counterexample: with an active session but no `title` form entry, the
`slugify` call — which runs before the `try` block — throws, and the caller
of `createPitch` receives the propagated exception instead of a structured
ERROR result. -/
theorem createPitch_slug_exception_propagates_cex :
    (createPitch (some ⟨"user-1"⟩) [("description", "d")] "p" (fun x => x)
        (fun _ => .ok "doc-1")).1 =
      .thrown "slugify: string argument expected" :=
  rfl

/-- C4 (amended): a submission failing the form schema never reaches the
server action through the client form handler: validation aborts the submit,
the handler returns the validation ERROR result, and no CMS write is
issued. -/
theorem handleFormSubmit_invalid_no_write (auth : Option Session)
    (form : List (String × String)) (pitchState : String)
    (isValidURL : String → Bool) (minPitchLen : Nat)
    (slugifyFn : String → String)
    (write : StartupDoc → Except String String)
    (hv : formSchemaOK isValidURL minPitchLen (formDataGet form "title")
        (formDataGet form "description") (formDataGet form "category")
        (formDataGet form "link") pitchState = false) :
    handleFormSubmit auth form pitchState isValidURL minPitchLen slugifyFn
        write =
      ({ payload := none, error := "Validation failed", status := .ERROR }
      , []) := by
  simp [handleFormSubmit, hv]

/-- Witness for C4's amended theorem at a concrete empty-title submission. -/
theorem handleFormSubmit_invalid_no_write_witness :
    handleFormSubmit none
        [("title", ""), ("description", "d"), ("category", "c"),
         ("link", "http://x")] "body" (fun _ => true) 0 (fun x => x)
        (fun _ => .ok "doc-3") =
      ({ payload := none, error := "Validation failed", status := .ERROR }
      , []) :=
  handleFormSubmit_invalid_no_write none
    [("title", ""), ("description", "d"), ("category", "c"),
     ("link", "http://x")] "body" (fun _ => true) 0 (fun x => x)
    (fun _ => .ok "doc-3") rfl

/-- C4 counterexample: the same empty-title submission is rejected by the form
schema, yet the server action `createPitch`, called directly, still issues a
CMS write — the validation gate exists only on the client, not on the
server. -/
theorem createPitch_no_server_validation_cex :
    formSchemaOK (fun _ => true) 1 (some "") (some "d") (some "c")
        (some "http://x") "body" = false
    ∧ ((createPitch (some ⟨"user-1"⟩)
        [("title", ""), ("description", "d"), ("category", "c"),
         ("link", "http://x")] "body" (fun x => x)
        (fun _ => .ok "doc-9")).2).length = 1
    ∧ (createPitch (some ⟨"user-1"⟩)
        [("title", ""), ("description", "d"), ("category", "c"),
         ("link", "http://x")] "body" (fun x => x)
        (fun _ => .ok "doc-9")).1 =
        .returned { payload := some ⟨"doc-9",
                      builtStartup ⟨"user-1"⟩
                        [("title", ""), ("description", "d"),
                         ("category", "c"), ("link", "http://x")] "body"
                        (fun x => x) ""⟩
                  , error := "", status := .SUCCESS } :=
  ⟨rfl, rfl, rfl⟩

/-- C5: the View widget schedules exactly one deferred write — run by `after`
only once the response has been produced and flushed — setting the view count
to the observed value plus one, and its rendered text is independent of the
outcome of that deferred commit. -/
theorem View_schedules_single_increment (id : String) (n : Nat)
    (o : Except String Unit) :
    (View id n o).afterWrites = [(id, n + 1)]
    ∧ (View id n o).rendered = renderViews n
    ∧ ∀ o', View id n o = View id n o' :=
  ⟨rfl, rfl, fun _ => rfl⟩

/-- C6: the view-count text is "No views" at zero, "1 view" at one, and the
number followed by " views" from two upward. -/
theorem renderViews_pluralization :
    renderViews 0 = "No views" ∧ renderViews 1 = "1 view"
    ∧ ∀ n, 2 ≤ n → renderViews n = toString n ++ " views" := by
  refine ⟨rfl, rfl, fun n hn => ?_⟩
  unfold renderViews
  rw [if_neg (by omega), if_neg (by omega)]

/-- Witness for C6 at count two. -/
theorem renderViews_pluralization_witness :
    renderViews 2 = toString 2 ++ " views" :=
  renderViews_pluralization.2.2 2 (by decide)

/-- C7: when the primary read yields no entity, the detail page composer —
which branches only on the joined results of the two parallel reads —
produces the not-found outcome, mounting no content. -/
theorem detailPage_missing_entity_notFound (id : String)
    (editorPosts : List FetchedStartup) (mdRender : String → String) :
    detailPage id none editorPosts mdRender = .notFound :=
  rfl

/-- C8: a non-empty search text from the route is passed unchanged as the
`search` filter of the list query; an absent query yields a null filter; and
an empty fetched list renders the no-results message instead of the card
grid. -/
theorem Home_search_filter (fetchList : Option String → List FetchedStartup)
    (q : String) (hq : q ≠ "") :
    (Home (some q) fetchList).searchParam = some q
    ∧ (Home none fetchList).searchParam = none
    ∧ ∀ query, fetchList (searchParamOf query) = [] →
        (Home query fetchList).grid = .noResults := by
  refine ⟨?_, rfl, fun query hfl => ?_⟩
  · simp [Home, searchParamOf, bne_iff_ne, hq]
  · simp [Home, hfl]

/-- Witness for C8 with the query "health" and an empty result list. -/
theorem Home_search_filter_witness :
    (Home (some "health") (fun _ => [])).searchParam = some "health"
    ∧ (Home none (fun _ => ([] : List FetchedStartup))).searchParam = none
    ∧ (Home (some "health") (fun _ => [])).grid = .noResults := by
  have h := Home_search_filter (fun _ => []) "health" (by decide)
  exact ⟨h.1, h.2.1, h.2.2 (some "health") rfl⟩

/-- C9: on an existing entity, the detail page renders the placeholder
`No details provided` when the pitch body is absent or empty (the converter
maps empty input to empty output), and the markdown-converted HTML whenever
the conversion of the body is non-empty. -/
theorem detailPage_pitch_body_rendering (id : String)
    (editorPosts : List FetchedStartup) (mdRender : String → String)
    (p : FetchedStartup) (hmd : mdRender "" = "") :
    ((p.pitch = none ∨ p.pitch = some "") →
      pitchSectionOf (detailPage id (some p) editorPosts mdRender) =
        some .noDetails)
    ∧ ∀ body, p.pitch = some body → mdRender body ≠ "" →
        pitchSectionOf (detailPage id (some p) editorPosts mdRender) =
          some (.article (mdRender body)) := by
  constructor
  · intro hp
    rcases hp with hp | hp <;> simp [detailPage, pitchSectionOf, hp, hmd]
  · intro body hp hne
    simp [detailPage, pitchSectionOf, hp, bne_iff_ne, hne]

/-- Witness for C9 at a concrete entity with pitch body "hello" and the
stand-in converter. -/
theorem detailPage_pitch_body_rendering_witness :
    pitchSectionOf (detailPage "id1"
        (some { title := "T", description := "D", category := "C"
              , image := "I", pitch := some "hello" }) [] mdStub) =
      some (.article (mdStub "hello")) :=
  (detailPage_pitch_body_rendering "id1" [] mdStub
    { title := "T", description := "D", category := "C", image := "I"
    , pitch := some "hello" } rfl).2 "hello" rfl (by decide)

/-- C10: every document for which `createPitch` issues a CMS write has its
slug object's `_type` field set to the slugified title itself — the same
string as `slug.current` — rather than to a fixed type tag. -/
theorem createPitch_slug_type_equals_current (auth : Option Session)
    (form : List (String × String)) (pitch : String)
    (slugifyFn : String → String) (write : StartupDoc → Except String String)
    (d : StartupDoc)
    (hd : d ∈ (createPitch auth form pitch slugifyFn write).2) :
    d.slug.ty = d.slug.current := by
  unfold createPitch at hd
  split at hd
  · simp at hd
  · split at hd
    · simp at hd
    · split at hd <;> (simp at hd; subst hd; rfl)

/-- Witness for C10 at a concrete submission. -/
theorem createPitch_slug_type_equals_current_witness :
    (builtStartup ⟨"user-2"⟩ [("title", "Hello World")] "p" (fun x => x)
        "Hello World").slug.ty =
      (builtStartup ⟨"user-2"⟩ [("title", "Hello World")] "p" (fun x => x)
        "Hello World").slug.current :=
  createPitch_slug_type_equals_current (some ⟨"user-2"⟩)
    [("title", "Hello World")] "p" (fun x => x) (fun _ => .ok "doc-2")
    (builtStartup ⟨"user-2"⟩ [("title", "Hello World")] "p" (fun x => x)
      "Hello World")
    (List.Mem.head _)

end JSMStartup
